import Mathlib

/-!
Verification of the AYC reporting dashboard core against its JavaScript
sources: the HaloPSA sync engine (sync-service), the multi-tenant company
context middleware, and the query/aggregation handlers of
server-supabase.js.  JavaScript numbers are modelled as Int or Nat,
nullable JSON fields as Option, fallible asynchronous calls as Except,
and the database as explicit state passed through each operation.
-/

namespace AYC

/-- Lowercase of a string as a character list, modelling the ASCII effect
of the JavaScript toLowerCase call used on status names. -/
def jsLower (s : String) : List Char :=
  s.data.map Char.toLower

/-- Model of the optional-chained substring test
`field?.toLowerCase().includes("closed")`: an absent field is falsy. -/
def containsClosed : Option String → Bool
  | none => false
  | some s => decide (("closed".data) <:+: jsLower s)

/-- Specification-level statement that an optional status-name field
contains the substring "closed" case-insensitively. -/
def ClosedName : Option String → Prop
  | none => False
  | some s => ("closed".data) <:+: jsLower s

/-- JavaScript truthiness of a nullable string: null, undefined and the
empty string are falsy.  Models the `a || b` fallback between the two
upstream status-name fields. -/
def jsOrString : Option String → Option String → Option String
  | none, b => b
  | some s, b => if s = "" then b else some s

/-- JavaScript truthiness of a nullable number: null, undefined and 0 are
falsy. -/
def jsTruthyInt : Option Int → Bool
  | none => false
  | some v => v != 0

/-- Raw HaloPSA ticket as returned by the upstream API, with the fields
the sync transform reads. -/
structure RawTicket where
  id : Int
  client_id : Option Int
  status_id : Option Int
  statusname : Option String
  status : Option String
  summary : Option String
  dateoccurred : Option Nat
  dateclosed : Option Nat
deriving DecidableEq, Repr

/-- Stored ticket row produced by the sync transform. -/
structure TicketRow where
  id : Int
  client_id : Option Int
  status_id : Option Int
  status_name : Option String
  summary : Option String
  date_occurred : Option Nat
  date_closed : Option Nat
  is_closed : Bool
deriving DecidableEq, Repr

/-- Per-ticket transform of syncTickets: copies fields, stores
`statusname || status` as the status name, and derives is_closed as
`status_id === 9 || statusname contains closed || status contains
closed` (case-insensitive). -/
def transformTicket (t : RawTicket) : TicketRow :=
  { id := t.id
    client_id := t.client_id
    status_id := t.status_id
    status_name := jsOrString t.statusname t.status
    summary := t.summary
    date_occurred := t.dateoccurred
    date_closed := t.dateclosed
    is_closed := (t.status_id == some 9) || containsClosed t.statusname ||
      containsClosed t.status }

theorem containsClosed_eq_true_iff (o : Option String) :
    containsClosed o = true ↔ ClosedName o := by
  cases o with
  | none => simp [containsClosed, ClosedName]
  | some s => simp [containsClosed, ClosedName]

/-- The raw ticket exhibiting the divergence for claim C8: its primary
status-name field is "Open" (and that is what gets stored as the status
name), but the secondary status field says "Closed". -/
def cexTicketC8 : RawTicket :=
  { id := 1, client_id := some 5, status_id := some 1,
    statusname := some "Open", status := some "Closed",
    summary := none, dateoccurred := some 0, dateclosed := none }

/-- C8 counterexample: a ticket whose stored status name is "Open" and
whose status id is 1 is nevertheless derived as closed, because the
transform also consults the secondary upstream status field.  This
refutes the claim that is_closed is true only if the status id is 9 or
the ticket status name contains "closed". -/
theorem c8_counterexample :
    (transformTicket cexTicketC8).is_closed = true ∧
    (transformTicket cexTicketC8).status_name = some "Open" ∧
    ¬(cexTicketC8.status_id = some 9 ∨
      ClosedName (transformTicket cexTicketC8).status_name) := by
  refine ⟨by decide, by decide, ?_⟩
  intro h
  rcases h with h | h
  · exact absurd h (by decide)
  · have : ClosedName (some "Open") := h
    simp only [ClosedName] at this
    exact absurd this (by decide)

/-- C8 as amended: the derived is_closed flag is true exactly when the
status id equals 9 or either upstream status-name field (statusname, or
the fallback status field) contains the substring "closed"
case-insensitively. -/
theorem c8_is_closed_derivation (t : RawTicket) :
    (transformTicket t).is_closed = true ↔
      (t.status_id = some 9 ∨ ClosedName t.statusname ∨ ClosedName t.status) := by
  simp only [transformTicket, Bool.or_eq_true, beq_iff_eq,
    containsClosed_eq_true_iff, or_assoc]

/-- Raw HaloPSA feedback record as returned by the upstream API. -/
structure RawFeedback where
  id : Int
  ticket_id : Option Int
  score : Option Int
  date : Option Nat
  comment : Option String
deriving DecidableEq, Repr

/-- Stored feedback row produced by the sync transform. -/
structure FeedbackRow where
  id : Int
  ticket_id : Option Int
  score : Option Int
  date : Option Nat
deriving DecidableEq, Repr

/-- The syncFeedback filter predicate: a record is kept when its
ticket_id is truthy (not null, not zero) and is one of the locally
stored ticket ids. -/
def keepFeedback (existing : List Int) (f : RawFeedback) : Bool :=
  match f.ticket_id with
  | none => false
  | some t => !(t == 0) && existing.contains t

/-- Per-record transform of syncFeedback. -/
def transformFeedback (f : RawFeedback) : FeedbackRow :=
  { id := f.id, ticket_id := f.ticket_id, score := f.score, date := f.date }

/-- The filter-then-transform pipeline of syncFeedback that produces the
rows handed to the upsert. -/
def filterFeedback (existing : List Int) (all : List RawFeedback) : List FeedbackRow :=
  (all.filter (keepFeedback existing)).map transformFeedback

/-- Locally stored ticket-id set containing the id 0, and a feedback
record referencing ticket 0, for the C7 counterexample. -/
def c7ZeroIds : List Int := [0]

/-- Feedback record referencing ticket id 0 for the C7 counterexample. -/
def cexFeedbackC7 : RawFeedback :=
  { id := 1, ticket_id := some 0, score := some 1, date := some 0, comment := none }

/-- C7 counterexample: a feedback record whose ticket id 0 is a member
of the locally stored ticket-id set is nevertheless dropped, because the
filter first tests JavaScript truthiness of the ticket id and 0 is
falsy.  This refutes the claim that exactly the records whose ticket id
is a member of the stored set are upserted. -/
theorem c7_counterexample :
    cexFeedbackC7.ticket_id = some 0 ∧ (0 : Int) ∈ c7ZeroIds ∧
    filterFeedback c7ZeroIds [cexFeedbackC7] = [] := by
  refine ⟨rfl, by decide, by decide⟩

/-- Ticket ids present locally for the C7 ten-record example. -/
def c7Existing : List Int := [101, 102, 103, 104, 105, 106, 107]

/-- Ten upstream feedback records of which three reference ticket ids
not present locally. -/
def c7All : List RawFeedback :=
  [{ id := 1, ticket_id := some 101, score := some 1, date := none, comment := none },
   { id := 2, ticket_id := some 102, score := some 1, date := none, comment := none },
   { id := 3, ticket_id := some 103, score := some 2, date := none, comment := none },
   { id := 4, ticket_id := some 104, score := some 1, date := none, comment := none },
   { id := 5, ticket_id := some 105, score := none, date := none, comment := none },
   { id := 6, ticket_id := some 106, score := some 1, date := none, comment := none },
   { id := 7, ticket_id := some 107, score := some 2, date := none, comment := none },
   { id := 8, ticket_id := some 201, score := some 1, date := none, comment := none },
   { id := 9, ticket_id := some 202, score := some 1, date := none, comment := none },
   { id := 10, ticket_id := some 203, score := some 2, date := none, comment := none }]

/-- C7 as amended: a feedback record survives the filter exactly when
its ticket id is non-null, non-zero and a member of the stored
ticket-id set; every upserted row references a stored ticket; and in
the ten-record example with three dangling references exactly seven
records survive, without any error path. -/
theorem c7_dependent_filtering :
    (∀ (existing : List Int) (f : RawFeedback),
        keepFeedback existing f = true ↔
          ∃ t, f.ticket_id = some t ∧ t ≠ 0 ∧ t ∈ existing) ∧
    (∀ (existing : List Int) (all : List RawFeedback) (r : FeedbackRow),
        r ∈ filterFeedback existing all →
          ∃ t, r.ticket_id = some t ∧ t ∈ existing) ∧
    (c7All.length = 10 ∧ (filterFeedback c7Existing c7All).length = 7) := by
  refine ⟨?_, ?_, by decide, by decide⟩
  · intro existing f
    cases h : f.ticket_id with
    | none => simp [keepFeedback, h]
    | some t =>
      simp [keepFeedback, h, List.elem_iff, and_comm]
  · intro existing all r hr
    simp only [filterFeedback, List.mem_map, List.mem_filter] at hr
    obtain ⟨f, ⟨hf, hkeep⟩, rfl⟩ := hr
    cases h : f.ticket_id with
    | none => simp [keepFeedback, h] at hkeep
    | some t =>
      refine ⟨t, by simp [transformFeedback, h], ?_⟩
      simp only [keepFeedback, h, Bool.and_eq_true, List.elem_iff] at hkeep
      exact hkeep.2

/-- C7 witness: the invariant part of the theorem applied to a concrete
surviving row. -/
theorem c7_dependent_filtering_witness :
    ∃ t, ({ id := 1, ticket_id := some 101, score := some 1, date := none } : FeedbackRow).ticket_id = some t ∧
      t ∈ c7Existing :=
  c7_dependent_filtering.2.1 c7Existing
    [{ id := 1, ticket_id := some 101, score := some 1, date := none, comment := none }]
    { id := 1, ticket_id := some 101, score := some 1, date := none }
    (by decide)

/-- Result block of the dashboard satisfaction aggregation.  The
JavaScript number arithmetic is modelled over the rationals. -/
structure Satisfaction where
  satisfied : Nat
  dissatisfied : Nat
  total : Nat
  satisfactionRate : ℚ
deriving DecidableEq, Repr

/-- Model of the JavaScript toFixed(1) rounding applied to a
non-negative rate: round to the nearest tenth, half up. -/
def toFixed1 (q : ℚ) : ℚ :=
  ((⌊q * 10 + 1 / 2⌋ : ℤ) : ℚ) / 10

/-- The dashboard satisfaction aggregation over the in-scope feedback
rows: satisfied counts score 1, dissatisfied counts score 2, total
counts truthy scores, and the rate is satisfied over total times 100 to
one decimal, or 0 when total is 0. -/
def satisfactionOf (rows : List FeedbackRow) : Satisfaction :=
  let satisfied := (rows.filter (fun f => f.score == some 1)).length
  let dissatisfied := (rows.filter (fun f => f.score == some 2)).length
  let total := (rows.filter (fun f => jsTruthyInt f.score)).length
  { satisfied := satisfied
    dissatisfied := dissatisfied
    total := total
    satisfactionRate :=
      if 0 < total then toFixed1 ((satisfied : ℚ) / (total : ℚ) * 100) else 0 }

/-- In-scope feedback rows for the C9 counterexample: one score-1 row
and one score-0 row. -/
def c9Rows : List FeedbackRow :=
  [{ id := 1, ticket_id := some 1, score := some 1, date := none },
   { id := 2, ticket_id := some 2, score := some 0, date := none }]

/-- C9 counterexample: a row whose score is 0 has a non-null score, but
the aggregation does not count it in total, because the filter tests
JavaScript truthiness of the score and 0 is falsy.  This refutes the
claim that total equals the count of rows with a non-null score. -/
theorem c9_counterexample :
    (satisfactionOf c9Rows).total = 1 ∧
    (c9Rows.filter (fun f => f.score ≠ none)).length = 2 := by
  constructor
  · decide
  · decide

/-- The feedback scores 1, 1, 2, 1, null of the specification example. -/
def c9ExampleRows : List FeedbackRow :=
  [{ id := 1, ticket_id := some 1, score := some 1, date := none },
   { id := 2, ticket_id := some 2, score := some 1, date := none },
   { id := 3, ticket_id := some 3, score := some 2, date := none },
   { id := 4, ticket_id := some 4, score := some 1, date := none },
   { id := 5, ticket_id := some 5, score := none, date := none }]

theorem length_filter_congr {α : Type} {p q : α → Bool} (h : ∀ a, p a = q a)
    (l : List α) : (l.filter p).length = (l.filter q).length := by
  rw [show p = q from funext h]

theorem score_ifs (f : FeedbackRow) :
    (if jsTruthyInt f.score then 1 else 0) =
      (if f.score == some 1 then 1 else 0) + (if f.score == some 2 then 1 else 0) +
        (if jsTruthyInt f.score && !(f.score == some 1) && !(f.score == some 2)
          then 1 else 0) := by
  cases h : f.score with
  | none => simp [jsTruthyInt, h]
  | some v =>
    by_cases h1 : v = 1
    · simp [jsTruthyInt, h, h1]
    · by_cases h2 : v = 2
      · simp [jsTruthyInt, h, h2]
      · by_cases h0 : v = 0
        · simp [jsTruthyInt, h, h0, h1, h2]
        · simp [jsTruthyInt, h, h0, h1, h2]

theorem score_count_split (l : List FeedbackRow) :
    l.countP (fun f => jsTruthyInt f.score) =
      l.countP (fun f => f.score == some 1) + l.countP (fun f => f.score == some 2) +
        l.countP (fun f =>
          jsTruthyInt f.score && !(f.score == some 1) && !(f.score == some 2)) := by
  induction l with
  | nil => rfl
  | cons f rest ih =>
    simp only [List.countP_cons]
    have hf := score_ifs f
    omega

theorem satisfactionRate_def (rows : List FeedbackRow) :
    (satisfactionOf rows).satisfactionRate =
      if 0 < (satisfactionOf rows).total then
        toFixed1 (((satisfactionOf rows).satisfied : ℚ) /
          ((satisfactionOf rows).total : ℚ) * 100)
      else 0 := rfl

/-- C9 as amended: satisfied counts the score-1 rows and dissatisfied
the score-2 rows; total counts the rows whose score is non-null and
non-zero, equivalently satisfied plus dissatisfied plus the other
non-zero scores; and the example scores 1, 1, 2, 1, null give
satisfied 3, dissatisfied 1, total 4 and rate 75.0. -/
theorem c9_satisfaction_math :
    (∀ rows : List FeedbackRow,
        (satisfactionOf rows).satisfied =
          rows.countP (fun f => decide (f.score = some 1)) ∧
        (satisfactionOf rows).dissatisfied =
          rows.countP (fun f => decide (f.score = some 2)) ∧
        (satisfactionOf rows).total =
          rows.countP (fun f => decide (f.score ≠ none ∧ f.score ≠ some 0)) ∧
        (satisfactionOf rows).total =
          (satisfactionOf rows).satisfied + (satisfactionOf rows).dissatisfied +
            rows.countP (fun f =>
              jsTruthyInt f.score && !(f.score == some 1) && !(f.score == some 2))) ∧
    satisfactionOf c9ExampleRows =
      { satisfied := 3, dissatisfied := 1, total := 4, satisfactionRate := 75 } := by
  constructor
  · intro rows
    refine ⟨?_, ?_, ?_, ?_⟩
    · simp only [satisfactionOf, List.countP_eq_length_filter]
      refine length_filter_congr (fun f => ?_) rows
      cases h : f.score with
      | none => simp [h]
      | some v => by_cases hv : v = 1 <;> simp [h, hv]
    · simp only [satisfactionOf, List.countP_eq_length_filter]
      refine length_filter_congr (fun f => ?_) rows
      cases h : f.score with
      | none => simp [h]
      | some v => by_cases hv : v = 2 <;> simp [h, hv]
    · simp only [satisfactionOf, List.countP_eq_length_filter]
      refine length_filter_congr (fun f => ?_) rows
      cases h : f.score with
      | none => simp [jsTruthyInt, h]
      | some v => by_cases hv : v = 0 <;> simp [jsTruthyInt, h, hv]
    · simp only [satisfactionOf, ← List.countP_eq_length_filter]
      exact score_count_split rows
  · have hsat : (satisfactionOf c9ExampleRows).satisfied = 3 := by decide
    have hdis : (satisfactionOf c9ExampleRows).dissatisfied = 1 := by decide
    have htot : (satisfactionOf c9ExampleRows).total = 4 := by decide
    have hrate : (satisfactionOf c9ExampleRows).satisfactionRate = 75 := by
      rw [satisfactionRate_def, hsat, htot]
      norm_num [toFixed1]
    have heta : satisfactionOf c9ExampleRows =
        ⟨(satisfactionOf c9ExampleRows).satisfied,
         (satisfactionOf c9ExampleRows).dissatisfied,
         (satisfactionOf c9ExampleRows).total,
         (satisfactionOf c9ExampleRows).satisfactionRate⟩ := rfl
    rw [heta, hsat, hdis, htot, hrate]

/-- One state of the fetchAllItems while-loop, modelled with an explicit
step budget (the loop condition re-reads record_count from every page,
so termination depends on the upstream).  The upstream maps a page
number to the served items and the reported record_count; the function
returns the accumulated items and the number of page requests made, or
none when the budget runs out. -/
def fetchLoop {α : Type} (upstream : Nat → List α × Nat) :
    Nat → Nat → List α → Nat → Option (List α × Nat)
  | 0, _, _, _ => none
  | fuel + 1, pageNo, acc, reqs =>
    let page := upstream pageNo
    let acc2 := acc ++ page.1
    if page.2 ≤ acc2.length ∨ page.1.length = 0 then some (acc2, reqs + 1)
    else fetchLoop upstream fuel (pageNo + 1) acc2 (reqs + 1)

/-- The fetchAllItems pagination loop: start at page 1 with no items. -/
def fetchAllItems {α : Type} (upstream : Nat → List α × Nat) (fuel : Nat) :
    Option (List α × Nat) :=
  fetchLoop upstream fuel 1 [] 0

/-- Honest mock upstream: N records total, served in pages of size P,
record_count always reported as N. -/
def mockUpstream (N P : Nat) : Nat → List Unit × Nat :=
  fun pageNo => (List.replicate (min P (N - (pageNo - 1) * P)) (), N)

/-- Lying mock upstream: reports record_count N but serves only k full
pages of size P and then empty pages. -/
def mockTruncated (N P k : Nat) : Nat → List Unit × Nat :=
  fun pageNo => if pageNo ≤ k then (List.replicate P (), N) else ([], N)

/-- Ceiling division, the expected number of page requests. -/
def ceilDiv (a b : Nat) : Nat :=
  (a + b - 1) / b

theorem ceilDiv_eq_one (r P : Nat) (h1 : 1 ≤ r) (h2 : r ≤ P) : ceilDiv r P = 1 := by
  unfold ceilDiv
  apply Nat.div_eq_of_lt_le <;> omega

theorem ceilDiv_succ (r P : Nat) (hP : 1 ≤ P) (h : P < r) :
    ceilDiv r P = ceilDiv (r - P) P + 1 := by
  unfold ceilDiv
  have he : r + P - 1 = (r - P + P - 1) + P := by omega
  rw [he, Nat.add_div_right _ (by omega : 0 < P)]

theorem fetchLoop_mock (N P : Nat) (hP : 1 ≤ P) :
    ∀ (fuel j : Nat) (acc : List Unit) (reqs : Nat),
      acc.length = j * P → j * P < N → N - j * P ≤ fuel →
      fetchLoop (mockUpstream N P) fuel (j + 1) acc reqs =
        some (acc ++ List.replicate (N - j * P) (), reqs + ceilDiv (N - j * P) P) := by
  intro fuel
  induction fuel with
  | zero =>
    intro j acc reqs _ hlt hfuel
    omega
  | succ fuel ih =>
    intro j acc reqs hacc hlt hfuel
    have hpage : mockUpstream N P (j + 1) =
        (List.replicate (min P (N - j * P)) (), N) := by
      simp [mockUpstream]
    by_cases hle : N - j * P ≤ P
    · have hmin : min P (N - j * P) = N - j * P := by omega
      have hcond : N ≤ (acc ++ List.replicate (N - j * P) ()).length ∨
          (List.replicate (N - j * P) ()).length = 0 := by
        left
        simp only [List.length_append, hacc, List.length_replicate]
        omega
      have hceil : ceilDiv (N - j * P) P = 1 := ceilDiv_eq_one _ _ (by omega) hle
      simp only [fetchLoop, hpage, hmin]
      rw [if_pos hcond, hceil]
    · have hmin : min P (N - j * P) = P := by omega
      have hj1 : (j + 1) * P = j * P + P := by ring
      have hlen2 : (acc ++ List.replicate P ()).length = (j + 1) * P := by
        simp only [List.length_append, hacc, List.length_replicate]
        ring
      have hcond : ¬(N ≤ (acc ++ List.replicate P ()).length ∨
          (List.replicate P ()).length = 0) := by
        simp only [hlen2, List.length_replicate]
        omega
      simp only [fetchLoop, hpage, hmin]
      rw [if_neg hcond]
      rw [ih (j + 1) (acc ++ List.replicate P ()) (reqs + 1) hlen2 (by omega)
        (by omega)]
      have hrep : acc ++ List.replicate P () ++ List.replicate (N - (j + 1) * P) () =
          acc ++ List.replicate (N - j * P) () := by
        rw [List.append_assoc, ← List.replicate_add]
        have : P + (N - (j + 1) * P) = N - j * P := by
          have hj : (j + 1) * P = j * P + P := by ring
          omega
        rw [this]
      have hreq : reqs + 1 + ceilDiv (N - (j + 1) * P) P =
          reqs + ceilDiv (N - j * P) P := by
        have hj : (j + 1) * P = j * P + P := by ring
        rw [ceilDiv_succ (N - j * P) P hP (by omega)]
        have : N - j * P - P = N - (j + 1) * P := by omega
        rw [this]
        ring
      rw [hrep, hreq]

theorem fetchLoop_truncated (N P k : Nat) (hP : 1 ≤ P) :
    ∀ (fuel j : Nat) (acc : List Unit) (reqs : Nat),
      j ≤ k → acc.length = j * P → k * P < N → (k - j) + 1 ≤ fuel →
      fetchLoop (mockTruncated N P k) fuel (j + 1) acc reqs =
        some (acc ++ List.replicate ((k - j) * P) (), reqs + (k - j) + 1) := by
  intro fuel
  induction fuel with
  | zero =>
    intro j acc reqs _ _ _ hfuel
    omega
  | succ fuel ih =>
    intro j acc reqs hjk hacc hkN hfuel
    by_cases hlt : j < k
    · have hpage : mockTruncated N P k (j + 1) = (List.replicate P (), N) := by
        simp only [mockTruncated, if_pos (by omega : j + 1 ≤ k)]
      have hj1 : (j + 1) * P = j * P + P := by ring
      have hmono : (j + 1) * P ≤ k * P := Nat.mul_le_mul_right P (by omega)
      have hlen2 : (acc ++ List.replicate P ()).length = (j + 1) * P := by
        simp only [List.length_append, hacc, List.length_replicate]
        omega
      have hcond : ¬(N ≤ (acc ++ List.replicate P ()).length ∨
          (List.replicate P ()).length = 0) := by
        simp only [hlen2, List.length_replicate]
        omega
      simp only [fetchLoop, hpage]
      rw [if_neg hcond]
      rw [ih (j + 1) (acc ++ List.replicate P ()) (reqs + 1) (by omega) hlen2 hkN
        (by omega)]
      have hm : k - j = (k - (j + 1)) + 1 := by omega
      have hrep : acc ++ List.replicate P () ++ List.replicate ((k - (j + 1)) * P) () =
          acc ++ List.replicate ((k - j) * P) () := by
        rw [List.append_assoc, ← List.replicate_add]
        have : P + (k - (j + 1)) * P = (k - j) * P := by
          rw [hm]
          ring
        rw [this]
      rw [hrep]
      have : reqs + 1 + (k - (j + 1)) + 1 = reqs + (k - j) + 1 := by omega
      rw [this]
    · have hj : j = k := by omega
      subst hj
      have hpage : mockTruncated N P j (j + 1) = ([], N) := by
        simp only [mockTruncated, if_neg (by omega : ¬(j + 1 ≤ j))]
      have hcond : N ≤ (acc ++ ([] : List Unit)).length ∨
          (([] : List Unit)).length = 0 := by
        right
        rfl
      simp only [fetchLoop, hpage]
      rw [if_pos hcond]
      simp

/-- C6 counterexample: when the upstream reports record_count 0, the
loop still performs its one initial page request before observing that
there is nothing to fetch, while ceil(0 / P) is 0.  This refutes the
exact-request-count part of the claim at N = 0. -/
theorem c6_counterexample :
    fetchAllItems (mockUpstream 0 100) 1 = some ([], 1) ∧ ceilDiv 0 100 = 0 := by
  constructor
  · decide
  · decide

/-- C6 as amended: against an upstream reporting record_count N and
serving pages of size P, the loop returns exactly N records in exactly
ceil(N / P) page requests when N is at least 1 (any step budget of at
least N suffices, so the loop terminates); at N = 0 it makes exactly
one request and returns no records; and when a page comes back empty
after k full pages with k * P below N, the loop stops early after that
empty page with the k * P records collected so far, without error. -/
theorem c6_pagination :
    (∀ N P fuel : Nat, 1 ≤ N → 1 ≤ P → N ≤ fuel →
        fetchAllItems (mockUpstream N P) fuel =
          some (List.replicate N (), ceilDiv N P)) ∧
    (∀ P fuel : Nat, 1 ≤ fuel →
        fetchAllItems (mockUpstream 0 P) fuel = some ([], 1)) ∧
    (∀ N P k fuel : Nat, 1 ≤ P → k * P < N → k + 1 ≤ fuel →
        fetchAllItems (mockTruncated N P k) fuel =
          some (List.replicate (k * P) (), k + 1)) := by
  refine ⟨?_, ?_, ?_⟩
  · intro N P fuel hN hP hfuel
    unfold fetchAllItems
    have h := fetchLoop_mock N P hP fuel 0 [] 0 (by simp) (by omega) (by omega)
    simpa using h
  · intro P fuel hfuel
    cases fuel with
    | zero => omega
    | succ f =>
      simp [fetchAllItems, fetchLoop, mockUpstream]
  · intro N P k fuel hP hkN hfuel
    unfold fetchAllItems
    have h := fetchLoop_truncated N P k hP fuel 0 [] 0 (by omega) (by simp) hkN
      (by omega)
    simpa using h

/-- C6 witness: the amended theorem applied at N = 5, P = 2 gives 5
records in 3 page requests. -/
theorem c6_pagination_witness :
    fetchAllItems (mockUpstream 5 2) 5 = some (List.replicate 5 (), ceilDiv 5 2) :=
  c6_pagination.1 5 2 5 (by decide) (by decide) (by decide)

/-- The three sync entity types of sync-service. -/
inductive SyncType
  | clients
  | tickets
  | feedback
deriving DecidableEq, Repr

/-- One sync_metadata row: sync type, timestamp, records synced, status
string and optional error message. -/
structure MetaRow where
  sync_type : SyncType
  last_sync : Nat
  records_synced : Nat
  status : String
  error_message : Option String
deriving DecidableEq, Repr

/-- Raw HaloPSA client record. -/
structure RawClient where
  id : Int
  name : Option String
  toplevel_id : Option Int
  toplevel_name : Option String
  inactive : Option Bool
  colour : Option String
deriving DecidableEq, Repr

/-- Stored client row; `inactive || false` coerces a missing flag. -/
structure ClientRow where
  id : Int
  name : Option String
  toplevel_id : Option Int
  toplevel_name : Option String
  inactive : Bool
  colour : Option String
deriving DecidableEq, Repr

/-- Per-client transform of syncClients. -/
def transformClient (c : RawClient) : ClientRow :=
  { id := c.id, name := c.name, toplevel_id := c.toplevel_id,
    toplevel_name := c.toplevel_name,
    inactive := c.inactive.getD false, colour := c.colour }

/-- Upsert keyed by id: each incoming row overwrites the existing row
with the same key or is appended.  Sequential batching in the source
upserts the same rows in the same order, so it is modelled as one
row-by-row fold. -/
def upsertById {α : Type} (key : α → Int) (table : List α) (rows : List α) : List α :=
  rows.foldl
    (fun acc r =>
      if acc.any (fun x => key x == key r) then
        acc.map (fun x => if key x == key r then r else x)
      else acc ++ [r])
    table

/-- The local store written by the sync engine.  The updated_at
bookkeeping columns are not modelled. -/
structure Db where
  clients : List ClientRow
  tickets : List TicketRow
  feedback : List FeedbackRow
  sync_metadata : List MetaRow
deriving DecidableEq, Repr

/-- The empty local store. -/
def emptyDb : Db :=
  { clients := [], tickets := [], feedback := [], sync_metadata := [] }

/-- One run environment for the sync engine: the current time and the
outcome of each upstream fetch (token acquisition failures and
mid-pagination fetch failures both surface as the Except error). -/
structure SyncEnv where
  now : Nat
  clientsFetch : Except String (List RawClient)
  ticketsFetch : Except String (List RawTicket)
  feedbackFetch : Except String (List RawFeedback)

/-- Successful sync_metadata row. -/
def successRow (t : SyncType) (now n : Nat) : MetaRow :=
  { sync_type := t, last_sync := now, records_synced := n,
    status := "success", error_message := none }

/-- Failed sync_metadata row. -/
def failedRow (t : SyncType) (now : Nat) (msg : String) : MetaRow :=
  { sync_type := t, last_sync := now, records_synced := 0,
    status := "failed", error_message := some msg }

/-- syncClients: fetch, transform, upsert by id, record metadata; on
failure record a failed row and rethrow the error. -/
def syncClients (env : SyncEnv) (db : Db) : Except String Nat × Db :=
  match env.clientsFetch with
  | .error e =>
    (.error e,
      { db with sync_metadata :=
          db.sync_metadata ++ [failedRow SyncType.clients env.now e] })
  | .ok raw =>
    let rows := raw.map transformClient
    (.ok rows.length,
      { db with
        clients := upsertById (fun c => c.id) db.clients rows,
        sync_metadata :=
          db.sync_metadata ++ [successRow SyncType.clients env.now rows.length] })

/-- syncTickets: fetch the date window, transform (deriving is_closed),
upsert by id, record metadata; on failure record a failed row and
rethrow.  The best-effort last_ticket_date recomputation does not touch
the modelled tables. -/
def syncTickets (env : SyncEnv) (_monthsBack : Nat) (db : Db) : Except String Nat × Db :=
  match env.ticketsFetch with
  | .error e =>
    (.error e,
      { db with sync_metadata :=
          db.sync_metadata ++ [failedRow SyncType.tickets env.now e] })
  | .ok raw =>
    let rows := raw.map transformTicket
    (.ok rows.length,
      { db with
        tickets := upsertById (fun t => t.id) db.tickets rows,
        sync_metadata :=
          db.sync_metadata ++ [successRow SyncType.tickets env.now rows.length] })

/-- syncFeedback: fetch all feedback; when zero records come back,
return 0 immediately; filter to records whose ticket exists locally;
when no record survives, return 0 immediately; otherwise upsert the
survivors and record metadata.  On fetch failure record a failed row
and rethrow. -/
def syncFeedback (env : SyncEnv) (db : Db) : Except String Nat × Db :=
  match env.feedbackFetch with
  | .error e =>
    (.error e,
      { db with sync_metadata :=
          db.sync_metadata ++ [failedRow SyncType.feedback env.now e] })
  | .ok raw =>
    if raw.length = 0 then (.ok 0, db)
    else
      let existing := db.tickets.map (fun t => t.id)
      let rows := filterFeedback existing raw
      if rows.length = 0 then (.ok 0, db)
      else
        (.ok rows.length,
          { db with
            feedback := upsertById (fun f => f.id) db.feedback rows,
            sync_metadata :=
              db.sync_metadata ++
                [successRow SyncType.feedback env.now rows.length] })

/-- performFullSync: run the three steps in sequence; each step that
throws aborts the remaining steps, exactly as the awaited calls in the
source do. -/
def performFullSync (env : SyncEnv) (monthsBack : Nat) (db : Db) :
    Except String (Nat × Nat × Nat) × Db :=
  match syncClients env db with
  | (.error e, db1) => (.error e, db1)
  | (.ok c, db1) =>
    match syncTickets env monthsBack db1 with
    | (.error e, db2) => (.error e, db2)
    | (.ok t, db2) =>
      match syncFeedback env db2 with
      | (.error e, db3) => (.error e, db3)
      | (.ok f, db3) => (.ok (c, t, f), db3)

/-- A raw ticket the tickets step would store, for the C4 run. -/
def c4RawTicket : RawTicket :=
  { id := 7, client_id := some 5, status_id := some 1,
    statusname := some "Open", status := none, summary := none,
    dateoccurred := some 10, dateclosed := none }

/-- C4 run environment: the clients fetch fails while the tickets and
feedback fetches would succeed. -/
def c4Env : SyncEnv :=
  { now := 0, clientsFetch := .error "boom",
    ticketsFetch := .ok [c4RawTicket], feedbackFetch := .ok [] }

/-- C4 counterexample: when the clients step fails, performFullSync
stops with that error; the tickets step, which would have stored a
ticket and written a tickets metadata row, is never attempted, so the
only metadata row is the failed clients row.  This refutes the claim
that a failure in one step does not prevent the remaining steps from
running. -/
theorem c4_counterexample :
    (performFullSync c4Env 12 emptyDb).1 = .error "boom" ∧
    (performFullSync c4Env 12 emptyDb).2.tickets = [] ∧
    (performFullSync c4Env 12 emptyDb).2.sync_metadata.map (fun m => m.sync_type) =
      [SyncType.clients] ∧
    (syncTickets c4Env 12 emptyDb).2.tickets ≠ [] := by
  refine ⟨rfl, by decide, by decide, by decide⟩

/-- C4 as amended: each sync step is wrapped in its own boundary that
records a failed SyncMetadata row before re-raising, but performFullSync
propagates the first failure, so the steps after the failing one are
not attempted while the steps before it complete normally. -/
theorem c4_sync_step_boundaries :
    ∀ (env : SyncEnv) (monthsBack : Nat) (db : Db),
      (∀ e, env.clientsFetch = .error e →
        performFullSync env monthsBack db =
          (.error e,
            { db with sync_metadata :=
                db.sync_metadata ++ [failedRow SyncType.clients env.now e] })) ∧
      (∀ cs e, env.clientsFetch = .ok cs → env.ticketsFetch = .error e →
        performFullSync env monthsBack db =
          (.error e,
            { db with
              clients := upsertById (fun c => c.id) db.clients (cs.map transformClient),
              sync_metadata := db.sync_metadata ++
                [successRow SyncType.clients env.now (cs.map transformClient).length,
                 failedRow SyncType.tickets env.now e] })) ∧
      (∀ cs ts e, env.clientsFetch = .ok cs → env.ticketsFetch = .ok ts →
          env.feedbackFetch = .error e →
        (performFullSync env monthsBack db).1 = .error e ∧
        (performFullSync env monthsBack db).2.sync_metadata = db.sync_metadata ++
          [successRow SyncType.clients env.now (cs.map transformClient).length,
           successRow SyncType.tickets env.now (ts.map transformTicket).length,
           failedRow SyncType.feedback env.now e] ∧
        (performFullSync env monthsBack db).2.feedback = db.feedback) := by
  intro env monthsBack db
  refine ⟨?_, ?_, ?_⟩
  · intro e h
    simp [performFullSync, syncClients, h]
  · intro cs e hc ht
    simp [performFullSync, syncClients, syncTickets, hc, ht]
  · intro cs ts e hc ht hf
    refine ⟨?_, ?_, ?_⟩ <;>
      simp [performFullSync, syncClients, syncTickets, syncFeedback, hc, ht, hf]

/-- C4 witness: the amended theorem applied to the concrete failing
run. -/
theorem c4_sync_step_boundaries_witness :
    performFullSync c4Env 12 emptyDb =
      (.error "boom",
        { emptyDb with sync_metadata :=
            emptyDb.sync_metadata ++ [failedRow SyncType.clients c4Env.now "boom"] }) :=
  (c4_sync_step_boundaries c4Env 12 emptyDb).1 "boom" rfl

/-- C5 run environment whose feedback fetch returns zero records. -/
def c5EnvNone : SyncEnv :=
  { now := 0, clientsFetch := .ok [], ticketsFetch := .ok [],
    feedbackFetch := .ok [] }

/-- A feedback record referencing a ticket that is not stored locally. -/
def c5OrphanFeedback : RawFeedback :=
  { id := 3, ticket_id := some 99, score := some 1, date := none, comment := none }

/-- C5 run environment whose feedback fetch returns only an orphan
record, so no record survives filtering. -/
def c5EnvOrphan : SyncEnv :=
  { now := 0, clientsFetch := .ok [], ticketsFetch := .ok [],
    feedbackFetch := .ok [c5OrphanFeedback] }

/-- C5 counterexample: a feedback sync attempt whose fetch returns zero
records, and one where no record survives filtering, both return 0 and
leave the store untouched, writing no SyncMetadata row at all.  This
refutes the claim that a row is written after every sync attempt. -/
theorem c5_counterexample :
    syncFeedback c5EnvNone emptyDb = (.ok 0, emptyDb) ∧
    syncFeedback c5EnvOrphan emptyDb = (.ok 0, emptyDb) ∧
    emptyDb.sync_metadata = [] := by
  refine ⟨rfl, rfl, rfl⟩

/-- C5 as amended: clients and tickets write a SyncMetadata row after
every attempt, success or failure, and feedback writes one on fetch
failure and on success with at least one surviving record; but when the
feedback fetch returns zero records, or no record survives the
dependent filter, syncFeedback returns 0 without writing any row. -/
theorem c5_sync_metadata_writes :
    ∀ (env : SyncEnv) (monthsBack : Nat) (db : Db),
      (∀ e, env.clientsFetch = .error e →
        (syncClients env db).2.sync_metadata =
          db.sync_metadata ++ [failedRow SyncType.clients env.now e]) ∧
      (∀ cs, env.clientsFetch = .ok cs →
        (syncClients env db).2.sync_metadata =
          db.sync_metadata ++
            [successRow SyncType.clients env.now (cs.map transformClient).length]) ∧
      (∀ e, env.ticketsFetch = .error e →
        (syncTickets env monthsBack db).2.sync_metadata =
          db.sync_metadata ++ [failedRow SyncType.tickets env.now e]) ∧
      (∀ ts, env.ticketsFetch = .ok ts →
        (syncTickets env monthsBack db).2.sync_metadata =
          db.sync_metadata ++
            [successRow SyncType.tickets env.now (ts.map transformTicket).length]) ∧
      (∀ e, env.feedbackFetch = .error e →
        (syncFeedback env db).2.sync_metadata =
          db.sync_metadata ++ [failedRow SyncType.feedback env.now e]) ∧
      (∀ raw, env.feedbackFetch = .ok raw →
          filterFeedback (db.tickets.map (fun t => t.id)) raw ≠ [] →
        (syncFeedback env db).2.sync_metadata =
          db.sync_metadata ++
            [successRow SyncType.feedback env.now
              (filterFeedback (db.tickets.map (fun t => t.id)) raw).length]) ∧
      (∀ raw, env.feedbackFetch = .ok raw →
          filterFeedback (db.tickets.map (fun t => t.id)) raw = [] →
        (syncFeedback env db).2 = db) := by
  intro env monthsBack db
  refine ⟨?_, ?_, ?_, ?_, ?_, ?_, ?_⟩
  · intro e h
    simp [syncClients, h]
  · intro cs h
    simp [syncClients, h]
  · intro e h
    simp [syncTickets, h]
  · intro ts h
    simp [syncTickets, h]
  · intro e h
    simp [syncFeedback, h]
  · intro raw h hne
    have hr : ¬raw.length = 0 := by
      intro hz
      refine hne ?_
      rw [List.length_eq_zero.mp hz]
      rfl
    have hrows : ¬(filterFeedback (db.tickets.map (fun t => t.id)) raw).length = 0 :=
      fun hz => hne (List.length_eq_zero.mp hz)
    simp only [syncFeedback, h]
    rw [if_neg hr, if_neg hrows]
  · intro raw h hz
    by_cases hr : raw.length = 0
    · simp only [syncFeedback, h]
      rw [if_pos hr]
    · have hrows : (filterFeedback (db.tickets.map (fun t => t.id)) raw).length = 0 := by
        rw [hz]
        rfl
      simp only [syncFeedback, h]
      rw [if_neg hr, if_pos hrows]

/-- Environment for the C5 witness: the feedback fetch fails. -/
def c5FailEnv : SyncEnv :=
  { now := 5, clientsFetch := .ok [], ticketsFetch := .ok [],
    feedbackFetch := .error "down" }

/-- C5 witness: the amended theorem applied to the concrete failing
feedback fetch. -/
theorem c5_sync_metadata_writes_witness :
    (syncFeedback c5FailEnv emptyDb).2.sync_metadata =
      emptyDb.sync_metadata ++ [failedRow SyncType.feedback c5FailEnv.now "down"] :=
  (c5_sync_metadata_writes c5FailEnv 12 emptyDb).2.2.2.2.1 "down" rfl

/-- User roles of the user_profiles table. -/
inductive Role
  | super_admin
  | customer
deriving DecidableEq, Repr

/-- One user_profiles row. -/
structure UserProfile where
  role : Role
  active_company_id : Option Nat
  impersonating_user_id : Option Nat
deriving DecidableEq, Repr

/-- The 403 reasons of the company-context middleware. -/
inductive CtxError
  | profileNotFound
  | impersonatedProfileNotFound
  | noActiveCompany
deriving DecidableEq, Repr

/-- The request context injected by the middleware. -/
structure Ctx where
  isSuperAdmin : Bool
  isRealSuperAdmin : Bool
  activeCompanyId : Option Nat
deriving DecidableEq, Repr

/-- The impersonation-aware injectCompanyContext middleware: load the
caller profile; when impersonating_user_id is set, load the
impersonated profile and use it as the effective profile; reject an
effective customer without an active company; expose isSuperAdmin from
the effective role and isRealSuperAdmin from the caller role. -/
def injectCompanyContext (profiles : List (Nat × UserProfile)) (userId : Nat) :
    Except CtxError Ctx :=
  match profiles.lookup userId with
  | none => .error CtxError.profileNotFound
  | some actual =>
    let isRealSuperAdmin := actual.role == Role.super_admin
    match actual.impersonating_user_id with
    | some targetId =>
      match profiles.lookup targetId with
      | none => .error CtxError.impersonatedProfileNotFound
      | some imp =>
        if imp.role == Role.customer && imp.active_company_id == none then
          .error CtxError.noActiveCompany
        else
          .ok { isSuperAdmin := imp.role == Role.super_admin
                isRealSuperAdmin := isRealSuperAdmin
                activeCompanyId := imp.active_company_id }
    | none =>
      if actual.role == Role.customer && actual.active_company_id == none then
        .error CtxError.noActiveCompany
      else
        .ok { isSuperAdmin := actual.role == Role.super_admin
              isRealSuperAdmin := isRealSuperAdmin
              activeCompanyId := actual.active_company_id }

/-- Mapping rows of a company in a company-to-external-id mapping
table. -/
def mappingIds (mapping : List (Nat × Int)) (c : Nat) : List Int :=
  (mapping.filter (fun row => row.1 == c)).map (fun row => row.2)

/-- One server as served by the monitoring client, with the fields the
handler filter and summary read. -/
structure ServerRow where
  organizationId : Option Int
  status : String
  osPending : Nat
  softwarePending : Nat
deriving DecidableEq, Repr

/-- The summary block of the servers response. -/
structure ServersSummary where
  totalServers : Nat
  onlineServers : Nat
  offlineServers : Nat
  serversNeedingPatches : Nat
deriving DecidableEq, Repr

/-- The servers payload: summary, server list and lastUpdated stamp. -/
structure ServersData where
  summary : ServersSummary
  servers : List ServerRow
  lastUpdated : Nat
deriving DecidableEq, Repr

/-- Summary recomputation over a filtered server list. -/
def serversSummaryOf (l : List ServerRow) : ServersSummary :=
  { totalServers := l.length
    onlineServers := (l.filter (fun s => s.status == "ONLINE")).length
    offlineServers := (l.filter (fun s => s.status == "OFFLINE")).length
    serversNeedingPatches :=
      (l.filter (fun s =>
        decide (0 < s.osPending) || decide (0 < s.softwarePending))).length }

/-- The GET api-servers handler: super admins get the full payload;
a user with an active company gets the servers filtered by
`allowedOrgIds.length === 0 || allowedOrgIds.includes(orgId)` with a
recomputed summary; a user without an active company gets an empty
payload. -/
def serversHandler (now : Nat) (ctx : Ctx) (mapping : List (Nat × Int))
    (data : ServersData) : ServersData :=
  if ctx.isSuperAdmin then data
  else
    match ctx.activeCompanyId with
    | some c =>
      let allowed := mappingIds mapping c
      let filtered := data.servers.filter (fun s =>
        allowed.length == 0 ||
          (match s.organizationId with
           | some o => allowed.contains o
           | none => false))
      { summary := serversSummaryOf filtered, servers := filtered,
        lastUpdated := data.lastUpdated }
    | none =>
      { summary := { totalServers := 0, onlineServers := 0,
                     offlineServers := 0, serversNeedingPatches := 0 },
        servers := [], lastUpdated := now }

/-- C2: while super admin A impersonates customer B (whose active
company is c), the resolved context for a request by A uses the profile
of B for all decisions: isSuperAdmin is false, activeCompanyId is the
company of B, the real-super-admin flag stays true, the context carries
the same decision fields as a request by B, and every servers read
under the context of A returns exactly what it returns under the own
context of B. -/
theorem c2_impersonation_flip :
    ∀ (profiles : List (Nat × UserProfile)) (aId bId c : Nat)
      (aProf bProf : UserProfile),
      profiles.lookup aId = some aProf →
      aProf.role = Role.super_admin →
      aProf.impersonating_user_id = some bId →
      profiles.lookup bId = some bProf →
      bProf.role = Role.customer →
      bProf.active_company_id = some c →
      bProf.impersonating_user_id = none →
      ∃ ctxA ctxB : Ctx,
        injectCompanyContext profiles aId = .ok ctxA ∧
        injectCompanyContext profiles bId = .ok ctxB ∧
        ctxA.isSuperAdmin = false ∧
        ctxA.activeCompanyId = some c ∧
        ctxA.isRealSuperAdmin = true ∧
        ctxA.isSuperAdmin = ctxB.isSuperAdmin ∧
        ctxA.activeCompanyId = ctxB.activeCompanyId ∧
        (∀ (now : Nat) (mapping : List (Nat × Int)) (data : ServersData),
          serversHandler now ctxA mapping data =
            serversHandler now ctxB mapping data) := by
  intro profiles aId bId c aProf bProf ha hrole himp hb brole bcomp bimp
  have hA : injectCompanyContext profiles aId =
      .ok { isSuperAdmin := false, isRealSuperAdmin := true,
            activeCompanyId := some c } := by
    simp [injectCompanyContext, ha, himp, hb, hrole, brole, bcomp]
  have hB : injectCompanyContext profiles bId =
      .ok { isSuperAdmin := false, isRealSuperAdmin := false,
            activeCompanyId := some c } := by
    simp [injectCompanyContext, hb, bimp, brole, bcomp]
  exact ⟨_, _, hA, hB, rfl, rfl, rfl, rfl, rfl, fun now mapping data => rfl⟩

/-- Profiles table for the C2 witness: user 1 is a super admin
impersonating user 2, a customer of company 7. -/
def c2Profiles : List (Nat × UserProfile) :=
  [(1, { role := Role.super_admin, active_company_id := none,
         impersonating_user_id := some 2 }),
   (2, { role := Role.customer, active_company_id := some 7,
         impersonating_user_id := none })]

/-- C2 witness: the theorem applied to the concrete profiles table. -/
theorem c2_impersonation_flip_witness :
    ∃ ctxA ctxB : Ctx,
      injectCompanyContext c2Profiles 1 = .ok ctxA ∧
      injectCompanyContext c2Profiles 2 = .ok ctxB ∧
      ctxA.isSuperAdmin = false ∧
      ctxA.activeCompanyId = some 7 ∧
      ctxA.isRealSuperAdmin = true ∧
      ctxA.isSuperAdmin = ctxB.isSuperAdmin ∧
      ctxA.activeCompanyId = ctxB.activeCompanyId ∧
      (∀ (now : Nat) (mapping : List (Nat × Int)) (data : ServersData),
        serversHandler now ctxA mapping data =
          serversHandler now ctxB mapping data) :=
  c2_impersonation_flip c2Profiles 1 2 7
    { role := Role.super_admin, active_company_id := none,
      impersonating_user_id := some 2 }
    { role := Role.customer, active_company_id := some 7,
      impersonating_user_id := none }
    (by decide) rfl rfl (by decide) rfl rfl rfl

/-- C1: for a non-admin request whose active company has zero rows in
the org mapping table, the servers handler returns the full unfiltered
server list, because the filter keeps every server when allowedOrgIds
is empty.  This evaluates the code at the failing input of the claimed
empty-mapping invariant. -/
theorem c1_empty_mapping_leak :
    ∀ (now : Nat) (ctx : Ctx) (mapping : List (Nat × Int)) (data : ServersData)
      (c : Nat),
      ctx.isSuperAdmin = false →
      ctx.activeCompanyId = some c →
      mappingIds mapping c = [] →
      (serversHandler now ctx mapping data).servers = data.servers := by
  intro now ctx mapping data c hsa hac hmap
  simp [serversHandler, hsa, hac, hmap]

/-- Context of a customer of company 1 for the C1 witness. -/
def c1Ctx : Ctx :=
  { isSuperAdmin := false, isRealSuperAdmin := false, activeCompanyId := some 1 }

/-- A server belonging to organization 42, which no mapping row
allows. -/
def c1Server : ServerRow :=
  { organizationId := some 42, status := "ONLINE", osPending := 0,
    softwarePending := 0 }

/-- Upstream servers payload for the C1 witness. -/
def c1Data : ServersData :=
  { summary := { totalServers := 1, onlineServers := 1, offlineServers := 0,
                 serversNeedingPatches := 0 },
    servers := [c1Server], lastUpdated := 0 }

/-- C1 witness: with an empty org mapping the customer receives the
full server list, including the organization-42 server. -/
theorem c1_empty_mapping_leak_witness :
    (serversHandler 0 c1Ctx [] c1Data).servers = c1Data.servers :=
  c1_empty_mapping_leak 0 c1Ctx [] c1Data 1 rfl rfl rfl

/-- Error responses of the ticket-stats handler. -/
inductive ApiError
  | noActiveCompany
  | accessDenied
deriving DecidableEq, Repr

/-- The per-ticket projection returned inside the stats response. -/
structure StatsTicketView where
  id : Int
  summary : Option String
  status : Option String
  dateOccurred : Option Nat
  dateClosed : Option Nat
deriving DecidableEq, Repr

/-- The ticket-stats response shape. -/
structure TicketStats where
  totalTickets : Nat
  closedTickets : Nat
  openTickets : Nat
  tickets : List StatsTicketView
deriving DecidableEq, Repr

/-- The tickets query of the stats handler: client_id equals the
requested client and date_occurred lies in the inclusive range. -/
def selectClientTickets (db : List TicketRow) (clientId : Int)
    (startDate endDate : Nat) : List TicketRow :=
  db.filter (fun t =>
    t.client_id == some clientId &&
      (match t.date_occurred with
       | some d => decide (startDate ≤ d) && decide (d ≤ endDate)
       | none => false))

/-- Response construction of the stats handler over selected rows. -/
def mkTicketStats (rows : List TicketRow) : TicketStats :=
  let total := rows.length
  let closed := (rows.filter (fun t => t.is_closed)).length
  { totalTickets := total
    closedTickets := closed
    openTickets := total - closed
    tickets := rows.map (fun t =>
      { id := t.id, summary := t.summary, status := t.status_name,
        dateOccurred := t.date_occurred, dateClosed := t.date_closed }) }

/-- The GET api-tickets-stats handler: super admins skip the access
check; a customer without an active company is rejected; a customer
whose company mapping does not list the requested client gets access
denied; otherwise the stats over the selected tickets are returned. -/
def ticketsStatsHandler (ctx : Ctx) (mapping : List (Nat × Int))
    (db : List TicketRow) (clientId : Int) (startDate endDate : Nat) :
    Except ApiError TicketStats :=
  if ctx.isSuperAdmin then
    .ok (mkTicketStats (selectClientTickets db clientId startDate endDate))
  else
    match ctx.activeCompanyId with
    | none => .error ApiError.noActiveCompany
    | some c =>
      if (mappingIds mapping c).contains clientId then
        .ok (mkTicketStats (selectClientTickets db clientId startDate endDate))
      else .error ApiError.accessDenied

theorem selectClientTickets_client_id (db : List TicketRow) (clientId : Int)
    (startDate endDate : Nat) (t : TicketRow)
    (ht : t ∈ selectClientTickets db clientId startDate endDate) :
    t.client_id = some clientId := by
  simp only [selectClientTickets, List.mem_filter, Bool.and_eq_true] at ht
  exact eq_of_beq ht.2.1

/-- C3: for a customer of company c, a stats request for a client id
outside the company mapping is rejected with access denied and returns
no ticket rows, while a request for a mapped client id succeeds and
every ticket row feeding the response belongs to that client. -/
theorem c3_ticket_stats_isolation :
    ∀ (ctx : Ctx) (mapping : List (Nat × Int)) (db : List TicketRow)
      (clientId : Int) (startDate endDate : Nat) (c : Nat),
      ctx.isSuperAdmin = false →
      ctx.activeCompanyId = some c →
      ((clientId ∉ mappingIds mapping c →
          ticketsStatsHandler ctx mapping db clientId startDate endDate =
            .error ApiError.accessDenied) ∧
       (clientId ∈ mappingIds mapping c →
          ticketsStatsHandler ctx mapping db clientId startDate endDate =
            .ok (mkTicketStats (selectClientTickets db clientId startDate endDate)) ∧
          ∀ t ∈ selectClientTickets db clientId startDate endDate,
            t.client_id = some clientId)) := by
  intro ctx mapping db clientId startDate endDate c hsa hac
  constructor
  · intro hnot
    simp only [ticketsStatsHandler, hsa, hac, Bool.false_eq_true, if_false]
    rw [if_neg]
    simp [List.elem_iff, hnot]
  · intro hin
    refine ⟨?_, fun t ht => selectClientTickets_client_id db clientId _ _ t ht⟩
    simp only [ticketsStatsHandler, hsa, hac, Bool.false_eq_true, if_false]
    rw [if_pos]
    simp [List.elem_iff, hin]

/-- Mapping table for the C3 witness: company 1 maps to clients 5
and 9. -/
def c3Mapping : List (Nat × Int) :=
  [(1, 5), (1, 9)]

/-- Context of a customer of company 1 for the C3 witness. -/
def c3Ctx : Ctx :=
  { isSuperAdmin := false, isRealSuperAdmin := false, activeCompanyId := some 1 }

/-- Stored tickets of clients 5 and 7 for the C3 witness. -/
def c3Db : List TicketRow :=
  [{ id := 1, client_id := some 5, status_id := some 9,
     status_name := some "Closed", summary := none, date_occurred := some 10,
     date_closed := some 20, is_closed := true },
   { id := 2, client_id := some 7, status_id := some 1,
     status_name := some "Open", summary := none, date_occurred := some 10,
     date_closed := none, is_closed := false }]

/-- C3 witness: requesting the unmapped client 7 is denied. -/
theorem c3_ticket_stats_isolation_witness :
    ticketsStatsHandler c3Ctx c3Mapping c3Db 7 0 100 =
      .error ApiError.accessDenied :=
  (c3_ticket_stats_isolation c3Ctx c3Mapping c3Db 7 0 100 1 rfl rfl).1 (by decide)

/-- Calendar day of a timestamp, modelling the date-string prefix used
for day bucketing (timestamps are counted in hours). -/
def dayOf (ts : Nat) : Nat :=
  ts / 24

/-- The dashboard year query: tickets whose date_occurred is at or
after the 365-day cutoff. -/
def yearDetailedTickets (db : List TicketRow) (cutoff : Nat) : List TicketRow :=
  db.filter (fun t =>
    match t.date_occurred with
    | some d => decide (cutoff ≤ d)
    | none => false)

/-- Tickets of the row set whose date_closed falls on the given day. -/
def closedOnDay (rows : List TicketRow) (day : Nat) : Nat :=
  (rows.filter (fun t =>
    match t.date_closed with
    | some d => dayOf d == day
    | none => false)).length

/-- Tickets of the row set whose date_occurred falls on the given
day. -/
def openedOnDay (rows : List TicketRow) (day : Nat) : Nat :=
  (rows.filter (fun t =>
    match t.date_occurred with
    | some d => dayOf d == day
    | none => false)).length

/-- C10: the daily trend counts both opened and closed tickets only
over the rows whose date_occurred lies in the 365-day window: removing
a ticket that occurred before the cutoff changes no day bucket, even
when its date_closed falls on a day inside the window. -/
theorem c10_daily_trend_window :
    ∀ (dbA dbB : List TicketRow) (t : TicketRow) (cutoff day d : Nat),
      t.date_occurred = some d → d < cutoff →
      closedOnDay (yearDetailedTickets (dbA ++ t :: dbB) cutoff) day =
        closedOnDay (yearDetailedTickets (dbA ++ dbB) cutoff) day ∧
      openedOnDay (yearDetailedTickets (dbA ++ t :: dbB) cutoff) day =
        openedOnDay (yearDetailedTickets (dbA ++ dbB) cutoff) day := by
  intro dbA dbB t cutoff day d hocc hd
  have hfilter : yearDetailedTickets (dbA ++ t :: dbB) cutoff =
      yearDetailedTickets (dbA ++ dbB) cutoff := by
    unfold yearDetailedTickets
    rw [List.filter_append, List.filter_append, List.filter_cons]
    have hp : (match t.date_occurred with
        | some d => decide (cutoff ≤ d)
        | none => false) = false := by
      rw [hocc]
      simp
      omega
    simp [hp]
  rw [hfilter]
  exact ⟨rfl, rfl⟩

/-- A ticket that occurred in the window for the C10 witness. -/
def c10InWindow : TicketRow :=
  { id := 1, client_id := some 5, status_id := some 9,
    status_name := some "Closed", summary := none,
    date_occurred := some 9600, date_closed := some 9624, is_closed := true }

/-- A ticket that occurred before the cutoff but closed inside the
window, for the C10 witness. -/
def c10Stale : TicketRow :=
  { id := 2, client_id := some 5, status_id := some 9,
    status_name := some "Closed", summary := none,
    date_occurred := some 0, date_closed := some 9624, is_closed := true }

/-- C10 witness: the theorem applied to the stale ticket at cutoff
2400 and day 401. -/
theorem c10_daily_trend_window_witness :
    closedOnDay (yearDetailedTickets ([] ++ c10Stale :: [c10InWindow]) 2400) 401 =
      closedOnDay (yearDetailedTickets ([] ++ [c10InWindow]) 2400) 401 ∧
    openedOnDay (yearDetailedTickets ([] ++ c10Stale :: [c10InWindow]) 2400) 401 =
      openedOnDay (yearDetailedTickets ([] ++ [c10InWindow]) 2400) 401 :=
  c10_daily_trend_window [] [c10InWindow] c10Stale 2400 401 0 rfl (by decide)

end AYC
